import Mathlib

/-!
Verification development for the Oracle estate status collector and reporter
(`health/codbcr-in.py`).  The Python source is shallowly embedded: pure string
processing becomes Lean functions over `String` / `List Char`; interactions
with the operating system (filesystem reads, environment variables, the
`sqlplus` and `lsnrctl` subprocesses) are supplied by an explicit `World`
record so that the control flow of `main` can be studied as a total function.
-/

set_option maxRecDepth 4000

namespace Codbcr

/-- Characters stripped by Python `str.strip()` (ASCII whitespace). -/
def isPySpace (c : Char) : Bool :=
  c = ' ' || c = '\t' || c = '\n' || c = '\r' || c = '\x0b' || c = '\x0c'

/-- Python `str.strip()`: remove leading and trailing whitespace. -/
def pyStrip (s : String) : String :=
  String.mk (((s.toList.dropWhile isPySpace).reverse.dropWhile isPySpace).reverse)

/-- Does `l` begin with `p`? (decidable prefix test on char lists). -/
def listBeginsWith : List Char → List Char → Bool
  | [], _ => true
  | _ :: _, [] => false
  | p :: ps, c :: cs => p = c && listBeginsWith ps cs

/-- Python `s.startswith(pre)`. -/
def pyStartsWith (s pre : String) : Bool :=
  listBeginsWith pre.toList s.toList

/-- Python `needle in hay` for strings: `needle` occurs as a contiguous
substring of `hay` (the empty needle always occurs). -/
def listOccursIn (needle : List Char) : List Char → Bool
  | [] => needle.isEmpty
  | l@(_ :: cs) => listBeginsWith needle l || listOccursIn needle cs

/-- Python `needle in hay` on `String`. -/
def strOccursIn (hay needle : String) : Bool :=
  listOccursIn needle.toList hay.toList

/-- Split a character list at every occurrence of `sep` (the separators used
by the source are the single characters `:` and newline). -/
def splitChar (sep : Char) : List Char → List (List Char)
  | [] => [[]]
  | c :: rest =>
    match splitChar sep rest with
    | [] => [[]]
    | h :: t => if c = sep then [] :: h :: t else (c :: h) :: t

/-- Python `s.split(sep)` for a single-character separator: always returns at
least one field; adjacent separators produce empty fields. -/
def pySplitStr (sep : Char) (s : String) : List String :=
  (splitChar sep s.toList).map String.mk

/-!
## Inventory source: `OratabParser` (`codbcr-in.py` lines 18-78)
-/

/-- `OratabParser.get_database_entries`, inner loop over the lines of the
oratab file: strip each line, skip blanks and `#` comments, split on `:`,
require at least two fields, and skip entries whose SID starts with `+` or
`*`.  Returns `(sid, oracle_home)` pairs in file order. -/
def getDatabaseEntriesLines : List String → List (String × String)
  | [] => []
  | line :: rest =>
    let l := pyStrip line
    if l = "" || pyStartsWith l "#" then
      getDatabaseEntriesLines rest
    else
      match pySplitStr ':' l with
      | sid :: home :: _ =>
        if pyStartsWith sid "+" || pyStartsWith sid "*" then
          getDatabaseEntriesLines rest
        else
          (sid, home) :: getDatabaseEntriesLines rest
      | _ => getDatabaseEntriesLines rest

/-- A stripped oratab line is well-formed when it is not blank, not a comment,
has at least two colon-delimited fields, and its identifier does not start
with the reserved sentinel prefixes `+` or `*`.  This definition follows the
words of the specification (§4.1), to be compared with the source-derived
`getDatabaseEntriesLines`. -/
def specWellFormedLine (l : String) : Bool :=
  !(l = "") && !(pyStartsWith l "#") &&
    decide (2 ≤ (pySplitStr ':' l).length) &&
    !(pyStartsWith ((pySplitStr ':' l).headD "") "+") &&
    !(pyStartsWith ((pySplitStr ':' l).headD "") "*")

/-- Specification-shaped parser (§4.1): strip every line, keep the well-formed
ones in order, and project out the first two colon-delimited fields. -/
def specEntries (lines : List String) : List (String × String) :=
  ((lines.map pyStrip).filter specWellFormedLine).map
    (fun l => ((pySplitStr ':' l).headD "", ((pySplitStr ':' l).drop 1).headD ""))

/-!
## Listener discovery: `ListenerChecker.get_listeners_from_file`
(`codbcr-in.py` lines 465-505)

The two regular expressions used by the source are embedded as explicit
scanners with Python `re.findall` semantics: leftmost, non-overlapping
matches, `\w+` greedy with backtracking.
-/

/-- A regex word character (`\w`): letter, digit, or underscore. -/
def isWordChar (c : Char) : Bool :=
  c.isAlpha || c.isDigit || c = '_'

/-- After the captured group, the pattern `_LISTENER\s*=` must match:
the literal `_LISTENER`, then any amount of whitespace, then `=`.
Returns the remaining characters after the `=` on success. -/
def matchListenerTail (l : List Char) : Option (List Char) :=
  match l with
  | '_' :: 'L' :: 'I' :: 'S' :: 'T' :: 'E' :: 'N' :: 'E' :: 'R' :: rest =>
    match rest.dropWhile isPySpace with
    | '=' :: rest2 => some rest2
    | _ => none
  | _ => none

/-- Greedy backtracking for `(\w+)_LISTENER\s*=`: try group lengths from `k`
downward (the regex engine first consumes the longest word run, then backtracks
until the literal tail matches).  `l` is the text at the match start. -/
def tryGroupLen (l : List Char) : Nat → Option (String × List Char)
  | 0 => none
  | k + 1 =>
    match matchListenerTail (l.drop (k + 1)) with
    | some rest => some (String.mk (l.take (k + 1)), rest)
    | none => tryGroupLen l k

/-- Attempt to match `(\w+)_LISTENER\s*=` at the start of `l`. -/
def matchCustomAt (l : List Char) : Option (String × List Char) :=
  tryGroupLen l (l.takeWhile isWordChar).length

/-- `re.findall(r'(\w+)_LISTENER\s*=', text)`: scan left to right, taking
non-overlapping matches; on failure advance one character.  `fuel` bounds the
recursion (each step consumes at least one character, so `l.length` suffices). -/
def findallCustom : Nat → List Char → List String
  | 0, _ => []
  | _ + 1, [] => []
  | fuel + 1, l@(_ :: rest) =>
    match matchCustomAt l with
    | some (g, after) => g :: findallCustom fuel after
    | none => findallCustom fuel rest

/-- Attempt to match `(LISTENER)\s*=` at the start of `l`. -/
def matchDefaultAt (l : List Char) : Option (List Char) :=
  match l with
  | 'L' :: 'I' :: 'S' :: 'T' :: 'E' :: 'N' :: 'E' :: 'R' :: rest =>
    match rest.dropWhile isPySpace with
    | '=' :: rest2 => some rest2
    | _ => none
  | _ => none

/-- `re.findall(r'(LISTENER)\s*=', text)`. -/
def findallDefault : Nat → List Char → List String
  | 0, _ => []
  | _ + 1, [] => []
  | fuel + 1, l@(_ :: rest) =>
    match matchDefaultAt l with
    | some after => "LISTENER" :: findallDefault fuel after
    | none => findallDefault fuel rest

/-- ASCII uppercase of one character. -/
def charUpper (c : Char) : Char :=
  if 97 ≤ c.toNat ∧ c.toNat ≤ 122 then Char.ofNat (c.toNat - 32) else c

/-- Python `str.upper()` (the listener names compared here are ASCII). -/
def pyToUpper (s : String) : String :=
  String.mk (s.toList.map charUpper)

/-- Python `list(set(xs))`, modelled as first-occurrence deduplication.
CPython's set iteration order is unspecified; every claim about the discovered
listener names is stated at the level of the underlying set. -/
def pySetList : List String → List String
  | [] => []
  | x :: xs => if (pySetList xs).contains x then pySetList xs else x :: pySetList xs

/-- Core of `get_listeners_from_file` once the file content is in hand:
run both patterns over the content, drop matches whose uppercase form is
exactly `SID_LIST`, deduplicate, and fall back to `["LISTENER"]` when nothing
was found. -/
def listenersOfContent (content : String) : List String :=
  let cs := content.toList
  let found :=
    (findallCustom cs.length cs).filter (fun m => pyToUpper m ≠ "SID_LIST") ++
      (findallDefault cs.length cs).filter (fun m => pyToUpper m ≠ "SID_LIST")
  let listeners := pySetList found
  if listeners.isEmpty then ["LISTENER"] else listeners

/-- `ListenerChecker.get_listeners_from_file`: read
`{oracle_home}/network/admin/listener.ora` through the filesystem oracle `fs`;
if the file is absent, return the default listener name. -/
def getListenersFromFile (fs : String → Option String) (oracleHome : String) :
    List String :=
  match fs (oracleHome ++ "/network/admin/listener.ora") with
  | none => ["LISTENER"]
  | some content => listenersOfContent content

/-!
## Standby apply lag: `OracleRunner.get_standby_apply_lag`
(`codbcr-in.py` lines 282-348)
-/

/-- A dynamically-typed Python value as it flows through the lag computation:
either a string or a number (ints and floats are collapsed into `ℚ`). -/
inductive PyVal where
  | str (s : String)
  | num (q : ℚ)
deriving DecidableEq, Repr

/-- Maximal runs of decimal digits, in order, with explicit fuel (each step
consumes at least one character, so the list length suffices). -/
def digitRunsF : Nat → List Char → List String
  | 0, _ => []
  | _ + 1, [] => []
  | fuel + 1, c :: rest =>
    if c.isDigit then
      String.mk (c :: rest.takeWhile Char.isDigit) ::
        digitRunsF fuel (rest.dropWhile Char.isDigit)
    else
      digitRunsF fuel rest

/-- `re.findall(r'\d+', s)`: maximal runs of decimal digits, in order. -/
def digitRuns (l : List Char) : List String :=
  digitRunsF l.length l

/-- Numeric value of a nonempty digit string (Python `int`). -/
def digitsToNat (s : String) : Nat :=
  s.toList.foldl (fun a c => a * 10 + (c.toNat - 48)) 0

/-- ASCII lowercase of one character. -/
def charLower (c : Char) : Char :=
  if 65 ≤ c.toNat ∧ c.toNat ≤ 90 then Char.ofNat (c.toNat + 32) else c

/-- Python `str.lower()` (the lag values handled here are ASCII). -/
def pyToLower (s : String) : String :=
  String.mk (s.toList.map charLower)

/-- Banker's rounding of a rational to the nearest integer (Python `round`). -/
def roundHalfEven (x : ℚ) : ℤ :=
  let f : ℤ := ⌊x⌋
  let r : ℚ := x - f
  if r < 1 / 2 then f
  else if 1 / 2 < r then f + 1
  else if f % 2 = 0 then f else f + 1

/-- Python `round(x, 1)`. -/
def pyRound1 (x : ℚ) : ℚ :=
  (roundHalfEven (x * 10) : ℚ) / 10

/-- The unit-normalisation branch of `get_standby_apply_lag` applied to the
raw `v$dataguard_stats` value.  Mirrors the source exactly: lowercase the
value; if it mentions minutes keep the first digit run **as a string**; if it
mentions seconds divide by 60 and round to one decimal; if it mentions hours
multiply by 60; otherwise pass the (lowercased) value through unchanged.  An
empty digit-run list raises `IndexError` in the source, which the bare
`except` converts to the `PARSE_ERROR` sentinel. -/
def parseLagValue (raw : String) : PyVal :=
  let val := pyToLower raw
  if strOccursIn val "minute" then
    match digitRuns val.toList with
    | [] => .str "PARSE_ERROR"
    | d :: _ => .str d
  else if strOccursIn val "second" then
    match digitRuns val.toList with
    | [] => .str "PARSE_ERROR"
    | d :: _ => .num (pyRound1 ((digitsToNat d : ℚ) / 60))
  else if strOccursIn val "hour" then
    match digitRuns val.toList with
    | [] => .str "PARSE_ERROR"
    | d :: _ => .num ((digitsToNat d : ℚ) * 60)
  else
    .str val

/-!
## Query-result dictionaries and the individual probes
(`codbcr-in.py` lines 172-417)

`execute_query_as_dict` hands back each row as a Python dict; rows are
modelled as association lists of column name to string value.
-/

/-- A row returned by `execute_query_as_dict`. -/
abbrev Row := List (String × String)

/-- Python `d.get(key, default)` on a row. -/
def pyGet (d : Row) (k dflt : String) : String :=
  match d.find? (fun p => p.1 = k) with
  | some p => p.2
  | none => dflt

/-- Python `d.get(key)` (default `None`) on a row. -/
def pyGetOpt (d : Row) (k : String) : Option String :=
  (d.find? (fun p => p.1 = k)).map (fun p => p.2)

/-- `OracleRunner.get_instance_status`: first row, or an error dict. -/
def getInstanceStatus (rows : List Row) : Row :=
  match rows with
  | [] => [("error", "No results returned")]
  | r :: _ => r

/-- `OracleRunner.is_primary_or_standby`: first row, or an error dict. -/
def isPrimaryOrStandby (rows : List Row) : Row :=
  match rows with
  | [] => [("error", "No results returned")]
  | r :: _ => r

/-- `OracleRunner.get_db_version`: the banner of the first row, defaulted. -/
def getDbVersion (rows : List Row) : String :=
  match rows with
  | [] => "UNKNOWN"
  | r :: _ => pyGet r "BANNER" "UNKNOWN"

/-- `OracleRunner.get_database_connections`: first row, or the UNKNOWN dict. -/
def getDatabaseConnections (rows : List Row) : Row :=
  match rows with
  | [] => [("active_connections", "UNKNOWN")]
  | r :: _ => r

/-- The `standby_info` dictionary assembled by `get_standby_apply_lag`. -/
structure StandbyInfo where
  mrpRunning : Bool
  mrpStatus : String
  mrpSequence : Option String
  mrpClientProcess : Option String
  lagMinutes : PyVal
  lastApplied : String
deriving DecidableEq, Repr

/-- `OracleRunner.get_standby_apply_lag`, over the three query results
(managed-standby processes, dataguard lag statistic, last applied log). -/
def getStandbyApplyLag (mrpRows lagRows lastRows : List Row) : StandbyInfo :=
  let mrp := match mrpRows with
    | [] => (false, "NOT RUNNING", (none : Option String), (none : Option String))
    | r :: _ =>
      (true, pyGet r "STATUS" "UNKNOWN", some (pyGet r "SEQUENCE_NUMBER" "UNKNOWN"),
        some (pyGet r "CLIENT_PROCESS" "UNKNOWN"))
  let lag := match lagRows with
    | [] => PyVal.str "UNKNOWN"
    | r :: _ => parseLagValue (pyGet r "LAG_VALUE" "")
  let lastA := match lastRows with
    | [] => "UNKNOWN"
    | r :: _ => pyGet r "LAST_APPLIED_TIME" "UNKNOWN"
  { mrpRunning := mrp.1, mrpStatus := mrp.2.1, mrpSequence := mrp.2.2.1,
    mrpClientProcess := mrp.2.2.2, lagMinutes := lag, lastApplied := lastA }

/-!
## Connectivity check: `OracleRunner.is_database_accessible`
(`codbcr-in.py` lines 237-250)

`execute_query` interacts with the external client; its outcome is an input
here: `.error msg` when the call raised, `.ok output` with the captured
standard output otherwise.  The source catches every exception and otherwise
tests for the substring `"1"` in the output.
-/

/-- `OracleRunner.is_database_accessible` as a total function of the
`execute_query` outcome.  Never raises by construction: the `except` branch
returns `false`, the normal branch returns `"1" in result`. -/
def isDatabaseAccessible (queryResult : Except String String) : Bool :=
  match queryResult with
  | .error _ => false
  | .ok output => strOccursIn output "1"

/-!
## External command invocations: the `subprocess.run` call sites
(`codbcr-in.py` lines 137-150 and 448-461)

A `subprocess.run` invocation is recorded with the arguments the source
actually passes.  `timeoutSeconds` is the `timeout=` keyword argument:
`none` means the argument is not passed and the call blocks until the
command finishes.
-/

/-- The arguments of a `subprocess.run` call site. -/
structure SubprocessCall where
  cmd : String
  shell : Bool
  captureOutput : Bool
  textMode : Bool
  timeoutSeconds : Option Nat
deriving DecidableEq, Repr

/-- The `subprocess.run` invocation made by `OracleRunner.execute_query`
(lines 137-150): the command string depends on `use_sysdba` and the
temporary script path; `shell=True`, `capture_output=True`, `text=True`,
and no `timeout=` argument. -/
def executeQueryCall (useSysdba : Bool) (sqlPath : String) : SubprocessCall :=
  { cmd :=
      if useSysdba then "sqlplus -S \x27/ as sysdba\x27 @" ++ sqlPath
      else "sqlplus -S \x27/\x27 @" ++ sqlPath
    shell := true
    captureOutput := true
    textMode := true
    timeoutSeconds := none }

/-- The `subprocess.run` invocation made by
`ListenerChecker._run_lsnrctl_command` (lines 448-461): the listener name is
appended when truthy; `shell=True`, `capture_output=True`, `text=True`, and
no `timeout=` argument. -/
def runLsnrctlCall (listenerName command : String) : SubprocessCall :=
  { cmd :=
      if listenerName ≠ "" then "lsnrctl " ++ command ++ " " ++ listenerName
      else "lsnrctl " ++ command
    shell := true
    captureOutput := true
    textMode := true
    timeoutSeconds := none }

/-!
## Report renderer: `ConsolidatedHTMLReportGenerator`
(`codbcr-in.py` lines 607-910)
-/

/-- `_get_open_mode_class` (lines 610-622). -/
def getOpenModeClass (openMode : String) (isPrimary : Bool) : String :=
  if isPrimary then
    if ["READ WRITE", "READ WRITE OPEN"].contains openMode then "status-good"
    else "status-error"
  else
    if ["READ ONLY", "READ ONLY WITH APPLY"].contains openMode then "status-good"
    else "status-error"

/-- Numeric core of `_get_lag_class` (lines 624-636): the `try` branch after
a successful `float()` conversion. -/
def getLagClassNum (lag : ℚ) : String :=
  if lag ≤ 5 then "status-good"
  else if lag ≤ 30 then "status-warning"
  else "status-error"

/-- Numeric core of `_get_usage_class` (lines 638-650). -/
def getUsageClassNum (usage : ℚ) : String :=
  if usage < 75 then "status-good"
  else if usage < 90 then "status-warning"
  else "status-error"

/-- Python `float()` on an optionally-signed decimal literal with optional
fractional part and surrounding whitespace; every other input raises
`ValueError` (modelled as `none`).  Exponent and special forms do not occur
in the values this program feeds to `float()` and are not modelled. -/
def pyFloatQ (s : String) : Option ℚ :=
  let t := (pyStrip s).toList
  let signAndDigits : ℤ × List Char :=
    match t with
    | '-' :: rest => (-1, rest)
    | '+' :: rest => (1, rest)
    | _ => (1, t)
  let sign := signAndDigits.1
  let u := signAndDigits.2
  let intPart := u.takeWhile Char.isDigit
  let afterInt := u.drop intPart.length
  match afterInt with
  | [] =>
    if intPart.isEmpty then none
    else some (sign * (digitsToNat (String.mk intPart) : ℚ))
  | '.' :: frac =>
    let fracPart := frac.takeWhile Char.isDigit
    if frac.drop fracPart.length ≠ [] then none
    else if intPart.isEmpty && fracPart.isEmpty then none
    else
      some (sign * ((digitsToNat (String.mk intPart) : ℚ) +
        (digitsToNat (String.mk fracPart) : ℚ) / (10 ^ fracPart.length)))
  | _ => none

/-- `_get_lag_class` on a dynamically-typed value: numbers are classified
directly, strings go through `float()`, and a failed conversion takes the
`except (ValueError, TypeError)` branch. -/
def getLagClass (v : PyVal) : String :=
  match v with
  | .num q => getLagClassNum q
  | .str s =>
    match pyFloatQ s with
    | some q => getLagClassNum q
    | none => "status-error"

/-- `_get_usage_class` on a string cell value. -/
def getUsageClass (s : String) : String :=
  match pyFloatQ s with
  | some q => getUsageClassNum q
  | none => "status-error"

/-!
## The `main` driver (`codbcr-in.py` lines 913-975)

The per-entry `db_info` dictionary and the listener structures are made
explicit, and the outside world (filesystem, environment variables, the
database and listener probes' external effects) is an explicit `World`
record.  An uncaught Python exception is an `Except.error`.
-/

/-- The dictionary built by `ListenerChecker.check_listener_status` for one
listener.  Its construction parses free-text `lsnrctl` output (and consults
the wall clock for the uptime field); that interaction is supplied by the
world as `World.listenerStatus`.  No claim concerns its internals. -/
structure ListenerInfo where
  name : String
  status : String
  version : String := "Unknown"
  startDate : String := "Unknown"
  uptime : String := "Unknown"
  services : List (String × String) := []
  endpoints : List String := []
deriving DecidableEq, Repr

/-- All query results needed for one accessible instance's probe. -/
structure ProbeData where
  instanceRows : List Row := []
  roleRows : List Row := []
  versionRows : List Row := []
  connectionRows : List Row := []
  tablespaceRows : List Row := []
  mrpRows : List Row := []
  lagRows : List Row := []
  lastAppliedRows : List Row := []
deriving DecidableEq, Repr

/-- Outcome of one instance's probe once the `OracleRunner` constructor has
succeeded: `is_database_accessible()` returned `False`; or it returned `True`
and the subsequent queries produced `d`; or it returned `True` and one of the
subsequent calls raised (the `except` in `main` catches it). -/
inductive ProbeOutcome where
  | inaccessible
  | ok (d : ProbeData)
  | raisesLater (msg : String)

/-- The external world of one run. -/
structure World where
  fs : String → Option String
  envOracleHome : Option String
  envOracleSid : Option String
  probe : String → String → ProbeOutcome
  listenerStatus : String → String → ListenerInfo
  hostname : String := "host"
  timestamp : String := "1970-01-01 00:00:00"

/-- Python's `value or env.get(NAME)` followed by the constructor's
falsiness check: the first non-empty string wins; an empty string or an
absent variable fails the check. -/
def effectiveOpt (s : String) (envVar : Option String) : Option String :=
  if s ≠ "" then some s
  else
    match envVar with
    | some t => if t ≠ "" then some t else none
    | none => none

/-- The `ValueError` message of `OracleRunner.__init__` /
`ListenerChecker.__init__` for a missing ORACLE_HOME. -/
def oracleHomeNotSetMsg : String :=
  "ORACLE_HOME not set. Either pass it to the constructor or set it in environment."

/-- The `ValueError` message of `OracleRunner.__init__` for a missing SID. -/
def oracleSidNotSetMsg : String :=
  "ORACLE_SID not set. Either pass it to the constructor or set it in environment."

/-- The per-instance `db_info` dictionary as it stands when appended to
`all_db_info`.  Fields written only on the successful path are `Option`s;
fields written before an exception that later flips `accessible` back to
`False` are never read by the renderer (it emits the NOT ACCESSIBLE row and
moves on), so they are not retained. -/
structure DbInfo where
  sid : String
  oracleHome : String
  accessible : Bool
  err : Option String := none
  inst : Option Row := none
  role : Option Row := none
  version : Option String := none
  connections : Option Row := none
  tablespaces : List Row := []
  standbyInfo : Option StandbyInfo := none
deriving DecidableEq, Repr

/-- The body of `main`'s `try`/`except` for one oratab entry, together with
the flag telling whether control reaches the listener block afterwards
(`False` exactly on the `continue` taken when `is_database_accessible()`
returns `False`). -/
def probeEntry (w : World) (sid home : String) : DbInfo × Bool :=
  match effectiveOpt home w.envOracleHome with
  | none =>
    ({ sid := sid, oracleHome := home, accessible := false,
       err := some oracleHomeNotSetMsg }, true)
  | some h =>
    match effectiveOpt sid w.envOracleSid with
    | none =>
      ({ sid := sid, oracleHome := home, accessible := false,
         err := some oracleSidNotSetMsg }, true)
    | some s =>
      match w.probe s h with
      | .inaccessible =>
        ({ sid := sid, oracleHome := home, accessible := false }, false)
      | .raisesLater msg =>
        ({ sid := sid, oracleHome := home, accessible := false,
           err := some msg }, true)
      | .ok d =>
        let role := isPrimaryOrStandby d.roleRows
        ({ sid := sid, oracleHome := home, accessible := true,
           inst := some (getInstanceStatus d.instanceRows),
           role := some role,
           version := some (getDbVersion d.versionRows),
           connections := some (getDatabaseConnections d.connectionRows),
           tablespaces := d.tablespaceRows,
           standbyInfo :=
             if pyGetOpt role "DATABASE_ROLE" = some "PRIMARY" then none
             else some (getStandbyApplyLag d.mrpRows d.lagRows d.lastAppliedRows)
         }, true)

/-- One listener group: the raw `oracle_home` string used as the
deduplication key, with the listeners found for it. -/
abbrev ListenerGroup := String × List ListenerInfo

/-- The listener block of `main` for one `oracle_home`: the
`ListenerChecker` constructor validates the home (uncaught `ValueError` when
it is falsy and the environment has none), then `check_all_listeners`
discovers the names from `listener.ora` and checks each one. -/
def listenerCheck (w : World) (homeRaw : String) : Except String ListenerGroup :=
  match effectiveOpt homeRaw w.envOracleHome with
  | none => .error oracleHomeNotSetMsg
  | some h =>
    .ok (homeRaw, (getListenersFromFile w.fs h).map (fun n => w.listenerStatus h n))

/-- The loop of `main` over the oratab entries.  `seen` is the key set of
`listener_info_by_home`.  Returns the accumulated `all_db_info` and the
listener groups in insertion order, or the uncaught exception. -/
def mainLoop (w : World) :
    List (String × String) → List String →
      Except String (List DbInfo × List ListenerGroup)
  | [], _ => .ok ([], [])
  | (sid, home) :: rest, seen =>
    let pr := probeEntry w sid home
    if pr.2 then
      if seen.contains home then
        match mainLoop w rest seen with
        | .error m => .error m
        | .ok (ds, ls) => .ok (pr.1 :: ds, ls)
      else
        match listenerCheck w home with
        | .error m => .error m
        | .ok grp =>
          match mainLoop w rest (home :: seen) with
          | .error m => .error m
          | .ok (ds, ls) => .ok (pr.1 :: ds, grp :: ls)
    else
      match mainLoop w rest seen with
      | .error m => .error m
      | .ok (ds, ls) => .ok (pr.1 :: ds, ls)

/-!
### Report assembly (summary tables)

The renderer builds the summary tables by appending one markup chunk per
item; the chunks are kept as a list (the source concatenates them).
Constant markup is reproduced with its whitespace condensed.
The per-database and per-listener detail sections are likewise one chunk per
item and are not modelled further; no claim references their contents.
-/

/-- Decimal rendering of the numbers the lag computation produces (integers,
or one decimal place after `round(x, 1)`): Python `str()` inside the
f-string. -/
def ratDisplay (q : ℚ) : String :=
  if q.den = 1 then toString q.num
  else
    let m := (q * 10).num
    toString (m / 10) ++ "." ++ toString (m % 10)

/-- Python `str()` of a lag value. -/
def pyValStr (v : PyVal) : String :=
  match v with
  | .str s => s
  | .num q => ratDisplay q

/-- The NOT ACCESSIBLE summary row (lines 659-670). -/
def notAccessibleRow (sid : String) : String :=
  "<tr><td>" ++ sid ++
    "</td><td class=\"status-error\">NOT ACCESSIBLE</td><td>N/A</td><td>N/A</td><td>N/A</td><td>N/A</td></tr>"

/-- The data summary row for an accessible instance (lines 672-697). -/
def dataRow (db : DbInfo) : String :=
  let instanceName := pyGet (db.inst.getD []) "INSTANCE_NAME" "UNKNOWN"
  let dbRole := pyGet (db.role.getD []) "DATABASE_ROLE" "UNKNOWN"
  let dbOpenMode := pyGet (db.role.getD []) "OPEN_MODE" "UNKNOWN"
  let instanceStatus := pyGet (db.inst.getD []) "STATUS" "UNKNOWN"
  let dbVersion := db.version.getD "UNKNOWN"
  let isPrimary := dbRole = "PRIMARY"
  let statusClass := if instanceStatus = "OPEN" then "status-good" else "status-error"
  let openModeClass := getOpenModeClass dbOpenMode isPrimary
  let lagDisplay :=
    if isPrimary then "N/A"
    else
      let lagMinutes :=
        match db.standbyInfo with
        | some si => si.lagMinutes
        | none => PyVal.str "UNKNOWN"
      "<span class=\"" ++ getLagClass lagMinutes ++ "\">" ++
        pyValStr lagMinutes ++ " min</span>"
  "<tr><td><a href=\"#db-" ++ db.sid ++ "\">" ++ instanceName ++
    "</a></td><td>" ++ dbRole ++ "</td><td class=\"" ++ openModeClass ++
    "\">" ++ dbOpenMode ++ "</td><td class=\"" ++ statusClass ++ "\">" ++
    instanceStatus ++ "</td><td>" ++ lagDisplay ++ "</td><td>" ++ dbVersion ++
    "</td></tr>"

/-- One iteration of the `db_summary_rows` loop (lines 658-697): the NOT
ACCESSIBLE row when `accessible` is `False`, the data row otherwise. -/
def summaryRowChunk (db : DbInfo) : String :=
  if db.accessible = false then notAccessibleRow db.sid else dataRow db

/-- The database summary table rows, one chunk per collected instance, in
order; the source concatenates these into `db_summary_rows`. -/
def dbSummaryRowChunks (dbs : List DbInfo) : List String :=
  dbs.map summaryRowChunk

/-- One listener summary row (lines 711-718). -/
def listenerRow (oracleHome : String) (l : ListenerInfo) : String :=
  "<tr><td><a href=\"#listener-" ++ l.name ++ "-" ++
    (oracleHome.replace "/" "_") ++ "\">" ++ l.name ++
    "</a></td><td class=\"" ++
    (if l.status = "UP" then "status-good" else "status-error") ++ "\">" ++
    l.status ++ "</td><td>" ++ toString l.services.length ++ "</td><td>" ++
    oracleHome ++ "</td></tr>"

/-- The listener summary table rows (nested loops of lines 701-718). -/
def listenerSummaryRowChunks (lgs : List ListenerGroup) : List String :=
  lgs.flatMap (fun g => g.2.map (fun l => listenerRow g.1 l))

/-- `generate_consolidated_report` (lines 653-910), summary part: the HTML
document with host, timestamp and both summary tables.  The `<style>` block
and the detail sections are constant or claim-irrelevant markup, condensed
here to section markers. -/
def generateConsolidatedReport (hostname timestamp : String)
    (dbs : List DbInfo) (lgs : List ListenerGroup) : String :=
  "<html><head><title>Oracle Database Status Report</title></head><body>" ++
    "<h1>Oracle Database Status Report</h1>" ++
    "<p><strong>Host:</strong> " ++ hostname ++ "</p>" ++
    "<p><strong>Generated At:</strong> " ++ timestamp ++ "</p>" ++
    "<h2>Database Summary</h2><table>" ++
    "<tr><th>SID</th><th>Role</th><th>Open Mode</th><th>Status</th><th>Lag</th><th>Version</th></tr>" ++
    String.join (dbSummaryRowChunks dbs) ++
    "</table><h2>Listener Summary</h2><table>" ++
    "<tr><th>Listener</th><th>Status</th><th>Services</th><th>ORACLE_HOME</th></tr>" ++
    String.join (listenerSummaryRowChunks lgs) ++
    "</table><hr><h2>Database Details</h2><h2>Listener Details</h2></body></html>"

/-!
### Top level
-/

/-- `OratabParser._find_oratab`: the first existing of the three common
locations. -/
def findOratab (fs : String → Option String) : Option String :=
  if (fs "/etc/oratab").isSome then some "/etc/oratab"
  else if (fs "/var/opt/oracle/oratab").isSome then some "/var/opt/oracle/oratab"
  else if (fs "/opt/oracle/oratab").isSome then some "/opt/oracle/oratab"
  else none

/-- `OratabParser.get_database_entries` end to end: when no oratab file is
found the method prints a diagnostic and returns the empty list; otherwise
the file's lines are parsed. -/
def getDatabaseEntriesW (w : World) : List (String × String) :=
  match findOratab w.fs with
  | none => []
  | some path =>
    match w.fs path with
    | none => []
    | some content => getDatabaseEntriesLines (pySplitStr '\n' content)

/-- Result of a completed run: the collected data and the written report. -/
structure RunResult where
  dbInfos : List DbInfo
  listenerGroups : List ListenerGroup
  reportHtml : String
deriving DecidableEq, Repr

/-- `main` end to end: parse the registry, run the loop, render and write the
report.  An `Except.error` is an uncaught exception escaping `main`. -/
def mainFull (w : World) : Except String RunResult :=
  let entries := getDatabaseEntriesW w
  match mainLoop w entries [] with
  | .error m => .error m
  | .ok (dbs, lgs) =>
    .ok { dbInfos := dbs, listenerGroups := lgs,
          reportHtml := generateConsolidatedReport w.hostname w.timestamp dbs lgs }

/-- Process exit status of the Python interpreter: 0 when `main` returns,
1 when an uncaught exception terminates it. -/
def processExitCode (r : Except String RunResult) : Nat :=
  match r with
  | .ok _ => 0
  | .error _ => 1

/-- First-occurrence deduplication relative to an already-seen key set: the
order in which new keys enter `listener_info_by_home`. -/
def firstOccur (seen : List String) : List String → List String
  | [] => []
  | h :: t =>
    if seen.contains h then firstOccur seen t
    else h :: firstOccur (h :: seen) t

/-!
### Concrete worlds used to instantiate the theorems
-/

/-- A world with no files, no environment, and every instance failing the
connectivity check cleanly. -/
def emptyWorld : World :=
  { fs := fun _ => none
    envOracleHome := none
    envOracleSid := none
    probe := fun _ _ => .inaccessible
    listenerStatus := fun _ n => { name := n, status := "DOWN" } }

/-- A world where instance `orcl` passes the connectivity check but a later
probe query raises, and every other instance is cleanly inaccessible. -/
def mixedWorld : World :=
  { fs := fun _ => none
    envOracleHome := none
    envOracleSid := none
    probe := fun s _ => if s = "orcl" then .raisesLater "boom" else .inaccessible
    listenerStatus := fun _ n => { name := n, status := "DOWN" } }

/-- Registry with two instances sharing one installation. -/
def sharedHomeEntries : List (String × String) :=
  [("orcl", "/u01"), ("stdby", "/u01")]

/-- The `all_db_info` list the loop collects for `mixedWorld` on
`sharedHomeEntries`. -/
def mixedDbs : List DbInfo :=
  [{ sid := "orcl", oracleHome := "/u01", accessible := false, err := some "boom" },
   { sid := "stdby", oracleHome := "/u01", accessible := false }]

/-- The listener groups the loop collects for `mixedWorld` on
`sharedHomeEntries`: the shared home is probed once (via the first entry,
whose probe raised after the connectivity check). -/
def mixedLgs : List ListenerGroup :=
  [("/u01", [{ name := "LISTENER", status := "DOWN" }])]

/-- The `all_db_info` entry for a cleanly inaccessible instance `a` at
home `/h`. -/
def inaccessibleDb : DbInfo :=
  { sid := "a", oracleHome := "/h", accessible := false }

/-- The listener.ora content of the specification's scenario: a custom-named
listener together with its SID_LIST stanza. -/
def salesListenerOra : String :=
  "SALES_LISTENER = (...)\nSID_LIST_SALES_LISTENER = (...)"

/-- A filesystem holding `salesListenerOra` under the standard relative
path of the installation `/u01/app/oracle/product/19`. -/
def salesFs : String → Option String :=
  fun p =>
    if p = "/u01/app/oracle/product/19/network/admin/listener.ora" then
      some salesListenerOra
    else none

/-- A default-named configuration: `LISTENER` plus its `SID_LIST_LISTENER`
stanza (the case the source's `SID_LIST` filter was written for). -/
def defaultListenerOra : String :=
  "LISTENER = (DESCRIPTION)\nSID_LIST_LISTENER = (SID_LIST=)"

/-- A filesystem whose only file is an oratab with the single line
`foo::N`: a registry entry with an empty install_path. -/
def emptyHomeOratabFs : String → Option String :=
  fun p => if p = "/etc/oratab" then some "foo::N" else none

/-- The `sqlplus` output of a failed connection attempt: the database is not
available, so the connectivity query was never answered. -/
def oraNotAvailableOutput : String :=
  "ERROR:\nORA-01034: ORACLE not available\nProcess ID: 0\nSession ID: 0 Serial number: 0"

/-- The world of the `foo::N` registry: no ORACLE_HOME or ORACLE_SID in the
environment, arbitrary probe and listener behaviour. -/
def emptyHomeWorld (probe : String → String → ProbeOutcome)
    (lst : String → String → ListenerInfo) : World :=
  { fs := emptyHomeOratabFs
    envOracleHome := none
    envOracleSid := none
    probe := probe
    listenerStatus := lst }

/-!
## Helper lemmas
-/

theorem probeEntry_fst_sid (w : World) (s h : String) :
    (probeEntry w s h).1.sid = s := by
  unfold probeEntry
  split
  · rfl
  · split
    · rfl
    · split <;> rfl

theorem probeEntry_fst_oracleHome (w : World) (s h : String) :
    (probeEntry w s h).1.oracleHome = h := by
  unfold probeEntry
  split
  · rfl
  · split
    · rfl
    · split <;> rfl

theorem listenerCheck_ok_fst (w : World) (home : String) (grp : ListenerGroup)
    (h : listenerCheck w home = .ok grp) : grp.1 = home := by
  unfold listenerCheck at h
  split at h
  · exact absurd h (by simp)
  · simp only [Except.ok.injEq] at h
    rw [← h]

theorem firstOccur_cons (seen : List String) (h : String) (t : List String) :
    firstOccur seen (h :: t) =
      if seen.contains h then firstOccur seen t
      else h :: firstOccur (h :: seen) t := rfl

theorem mem_firstOccur (x : String) :
    ∀ (l seen : List String),
      x ∈ firstOccur seen l ↔ x ∈ l ∧ x ∉ seen := by
  intro l
  induction l with
  | nil => intro seen; simp [firstOccur]
  | cons h t ih =>
    intro seen
    rw [firstOccur_cons]
    by_cases hc : seen.contains h = true
    · rw [if_pos hc, ih seen]
      replace hc : h ∈ seen := by simpa using hc
      constructor
      · rintro ⟨hx, hs⟩
        exact ⟨List.mem_cons_of_mem _ hx, hs⟩
      · rintro ⟨hx, hs⟩
        rcases List.mem_cons.mp hx with rfl | hx
        · exact absurd hc hs
        · exact ⟨hx, hs⟩
    · rw [if_neg hc]
      replace hc : h ∉ seen := by simpa using hc
      constructor
      · intro hx
        rcases List.mem_cons.mp hx with rfl | hx
        · exact ⟨List.mem_cons_self _ _, hc⟩
        · obtain ⟨hxt, hxs⟩ := (ih (h :: seen)).mp hx
          simp only [List.mem_cons, not_or] at hxs
          exact ⟨List.mem_cons_of_mem _ hxt, hxs.2⟩
      · rintro ⟨hx, hs⟩
        rcases List.mem_cons.mp hx with rfl | hx
        · exact List.mem_cons_self _ _
        · by_cases hxh : x = h
          · subst hxh; exact List.mem_cons_self _ _
          · refine List.mem_cons_of_mem _ ((ih (h :: seen)).mpr ⟨hx, ?_⟩)
            simp [hs, hxh]

theorem firstOccur_nodup :
    ∀ (l seen : List String), (firstOccur seen l).Nodup := by
  intro l
  induction l with
  | nil => intro seen; simp [firstOccur]
  | cons h t ih =>
    intro seen
    rw [firstOccur_cons]
    by_cases hc : seen.contains h = true
    · rw [if_pos hc]; exact ih seen
    · rw [if_neg hc]
      refine List.nodup_cons.mpr ⟨?_, ih (h :: seen)⟩
      intro hmem
      obtain ⟨_, hs⟩ := (mem_firstOccur h t (h :: seen)).mp hmem
      exact hs (List.mem_cons_self _ _)

theorem mainLoop_ok_spec (w : World) :
    ∀ (entries : List (String × String)) (seen : List String)
      (dbs : List DbInfo) (lgs : List ListenerGroup),
      mainLoop w entries seen = .ok (dbs, lgs) →
      dbs = entries.map (fun e => (probeEntry w e.1 e.2).1) ∧
        lgs.map Prod.fst =
          firstOccur seen
            ((entries.filter (fun e => (probeEntry w e.1 e.2).2)).map Prod.snd) := by
  intro entries
  induction entries with
  | nil =>
    intro seen dbs lgs h
    simp only [mainLoop, Except.ok.injEq, Prod.mk.injEq] at h
    simp [← h.1, ← h.2, firstOccur]
  | cons e rest ih =>
    intro seen dbs lgs h
    obtain ⟨sid, home⟩ := e
    rw [mainLoop] at h
    simp only [List.map_cons, List.filter_cons]
    by_cases hpr : (probeEntry w sid home).2 = true
    · rw [if_pos hpr] at h
      simp only [hpr, if_true, List.map_cons]
      by_cases hseen : seen.contains home = true
      · rw [if_pos hseen] at h
        rcases hrec : mainLoop w rest seen with m | ⟨ds, ls⟩
        · rw [hrec] at h; exact absurd h (by simp)
        · rw [hrec] at h
          simp only [Except.ok.injEq, Prod.mk.injEq] at h
          obtain ⟨hdbs, hlgs⟩ := h
          obtain ⟨ih1, ih2⟩ := ih seen ds ls hrec
          subst hdbs hlgs
          refine ⟨by rw [ih1], ?_⟩
          rw [firstOccur_cons, if_pos hseen]
          exact ih2
      · rw [if_neg hseen] at h
        rcases hlc : listenerCheck w home with m | grp
        · rw [hlc] at h; exact absurd h (by simp)
        · rw [hlc] at h
          rcases hrec : mainLoop w rest (home :: seen) with m | ⟨ds, ls⟩
          · rw [hrec] at h; exact absurd h (by simp)
          · rw [hrec] at h
            simp only [Except.ok.injEq, Prod.mk.injEq] at h
            obtain ⟨hdbs, hlgs⟩ := h
            obtain ⟨ih1, ih2⟩ := ih (home :: seen) ds ls hrec
            subst hdbs hlgs
            refine ⟨by rw [ih1], ?_⟩
            simp only [List.map_cons]
            rw [listenerCheck_ok_fst w home grp hlc, firstOccur_cons, if_neg hseen, ih2]
    · rw [if_neg hpr] at h
      simp only [Bool.not_eq_true] at hpr
      simp only [hpr, Bool.false_eq_true, if_false]
      rcases hrec : mainLoop w rest seen with m | ⟨ds, ls⟩
      · rw [hrec] at h; exact absurd h (by simp)
      · rw [hrec] at h
        simp only [Except.ok.injEq, Prod.mk.injEq] at h
        obtain ⟨hdbs, hlgs⟩ := h
        obtain ⟨ih1, ih2⟩ := ih seen ds ls hrec
        subst hdbs hlgs
        exact ⟨by rw [ih1], by rw [ih2]⟩

/-!
## Claims
-/

/-- Claim C1, counterexample.  The claim says every external command
invocation is time-bounded by a timeout (default 30 seconds).  In the source,
both `subprocess.run` call sites pass **no** `timeout=` argument at all: at
concrete inputs, the timeout component of the recorded call is `none`, not
`some 30` (nor any other bound), so the invocations are not time-bounded and
no operation can ever produce a TIMEOUT sentinel. -/
theorem c1_counterexample :
    (executeQueryCall true "/tmp/q.sql").timeoutSeconds = none ∧
      (executeQueryCall true "/tmp/q.sql").timeoutSeconds ≠ some 30 ∧
      (runLsnrctlCall "LISTENER" "status").timeoutSeconds = none ∧
      (runLsnrctlCall "LISTENER" "status").timeoutSeconds ≠ some 30 := by
  refine ⟨rfl, ?_, rfl, ?_⟩ <;> simp [executeQueryCall, runLsnrctlCall]

/-- Claim C1, amended.  The SQL client invocation of
`OracleRunner.execute_query` and the listener control invocation of
`ListenerChecker._run_lsnrctl_command` pass no `timeout=` argument to
`subprocess.run`, whatever the connection mode, script path, listener name or
subcommand: the calls are not time-bounded, and there is no TIMEOUT sentinel
anywhere in the script. -/
theorem c1_amended (useSysdba : Bool) (sqlPath listenerName command : String) :
    (executeQueryCall useSysdba sqlPath).timeoutSeconds = none ∧
      (runLsnrctlCall listenerName command).timeoutSeconds = none :=
  ⟨rfl, rfl⟩

/-- Claim C4 (code bug), evaluation at the failing input.  The specification's
scenario: a listener.ora holding `SALES_LISTENER = (...)` and
`SID_LIST_SALES_LISTENER = (...)` should yield exactly {"SALES"}.  The source's
filter only removes a match whose uppercase form is exactly `SID_LIST`, which
happens only for the default-named `SID_LIST_LISTENER` stanza; on the custom
name the greedy group captures `SID_LIST_SALES`, and the second pattern also
matches the `LISTENER` suffix inside both stanza names — so the code returns
the set {"SALES", "SID_LIST_SALES", "LISTENER"}.  On the default-named
configuration the filter does work, and with no file at all the fallback
applies, confirming the intent the custom-name case violates. -/
theorem c4_bug_eval :
    getListenersFromFile salesFs "/u01/app/oracle/product/19" =
        ["SALES", "SID_LIST_SALES", "LISTENER"] ∧
      getListenersFromFile salesFs "/u01/app/oracle/product/19" ≠ ["SALES"] ∧
      listenersOfContent defaultListenerOra = ["LISTENER"] ∧
      getListenersFromFile (fun _ => none) "/u01/app/oracle/product/19" =
        ["LISTENER"] := by
  refine ⟨by decide, by decide, by decide, rfl⟩

/-- Claim C8, counterexample.  The claim says `is_database_accessible` returns
`true` only when the database actually answered the connectivity query.  The
check is `"1" in result`: on the canonical output of a *failed* connection
attempt — the client's `ORA-01034: ORACLE not available` diagnostic, emitted
precisely when the database is down and nothing answered — the digit 1 inside
the error code makes the function return `true`. -/
theorem c8_counterexample :
    isDatabaseAccessible (Except.ok oraNotAvailableOutput) = true := by
  decide

/-- Claim C8, amended.  `is_database_accessible` never raises: an exception
anywhere in the connectivity query is caught and becomes `false`; on a
completed query it returns exactly the substring test `"1" in output` — true
whenever the output contains the character 1, including failure diagnostics
such as `ORA-01034`. -/
theorem c8_amended :
    (∀ msg : String, isDatabaseAccessible (.error msg) = false) ∧
      (∀ output : String,
        isDatabaseAccessible (.ok output) = strOccursIn output "1") :=
  ⟨fun _ => rfl, fun _ => rfl⟩

/-- Claim C9.  `get_database_entries` returns exactly the well-formed registry
lines as `(sid, install_path)` pairs taken from the first two colon-delimited
fields, in file order: blank lines, lines whose first non-blank character is
`#`, identifiers starting with the reserved prefixes `+` or `*`, and
malformed lines with fewer than two colon-delimited fields are all skipped
(silently — the parsing function is total). -/
theorem c9_parser_exact (lines : List String) :
    getDatabaseEntriesLines lines = specEntries lines := by
  induction lines with
  | nil => rfl
  | cons line rest ih =>
    unfold getDatabaseEntriesLines specEntries
    simp only [List.map_cons, List.filter_cons]
    by_cases hb : pyStrip line = "" ∨ pyStartsWith (pyStrip line) "#"
    · have hcond : (pyStrip line = "" || pyStartsWith (pyStrip line) "#") = true := by
        rcases hb with h | h <;> simp [h]
      have hwf : specWellFormedLine (pyStrip line) = false := by
        unfold specWellFormedLine
        rcases hb with h | h <;> simp [h]
      simp only [hcond, if_true, hwf, Bool.false_eq_true, if_false]
      exact ih
    · push_neg at hb
      obtain ⟨hne, hnc⟩ := hb
      have hcond : (pyStrip line = "" || pyStartsWith (pyStrip line) "#") = false := by
        simp [hne, hnc]
      simp only [hcond, Bool.false_eq_true, if_false]
      rcases hsplit : pySplitStr ':' (pyStrip line) with _ | ⟨sid, _ | ⟨home, tailParts⟩⟩
      · -- the split never returns the empty list, but the branch is handled
        -- uniformly: fewer than two fields means not well-formed.
        have hwf : specWellFormedLine (pyStrip line) = false := by
          unfold specWellFormedLine
          simp [hsplit]
        simp only [hwf, Bool.false_eq_true, if_false]
        exact ih
      · have hwf : specWellFormedLine (pyStrip line) = false := by
          unfold specWellFormedLine
          simp [hsplit]
        simp only [hwf, Bool.false_eq_true, if_false]
        exact ih
      · by_cases hs : pyStartsWith sid "+" ∨ pyStartsWith sid "*"
        · have hscond : (pyStartsWith sid "+" || pyStartsWith sid "*") = true := by
            rcases hs with h | h <;> simp [h]
          have hwf : specWellFormedLine (pyStrip line) = false := by
            unfold specWellFormedLine
            rcases hs with h | h <;> simp [hsplit, h]
          simp only [hscond, if_true, hwf, Bool.false_eq_true, if_false]
          exact ih
        · push_neg at hs
          obtain ⟨hp, hstar⟩ := hs
          have hscond : (pyStartsWith sid "+" || pyStartsWith sid "*") = false := by
            simp [hp, hstar]
          have hwf : specWellFormedLine (pyStrip line) = true := by
            unfold specWellFormedLine
            simp [hsplit, hne, hnc, hp, hstar]
          simp only [hscond, Bool.false_eq_true, if_false, hwf, if_true,
            List.map_cons, hsplit]
          simp [ih, specEntries]

/-- Claim C2.  For any run that completes, the loop collects exactly one
`db_info` per registry entry, in registry order, and the database summary
table renders exactly one row per collected `db_info`: the row list is the
entry list mapped through the probe and the row renderer (so its length is
the number of entries and no entry is dropped or duplicated), the SIDs appear
in registry order, and an entry whose probe fails (`accessible = false`,
whether from the connectivity check, a constructor error or a later probe
exception) renders the NOT ACCESSIBLE row. -/
theorem c2_completeness (w : World) (entries : List (String × String))
    (dbs : List DbInfo) (lgs : List ListenerGroup)
    (h : mainLoop w entries [] = .ok (dbs, lgs)) :
    (dbSummaryRowChunks dbs).length = entries.length ∧
      dbs.map DbInfo.sid = entries.map Prod.fst ∧
      dbSummaryRowChunks dbs =
        entries.map (fun e => summaryRowChunk (probeEntry w e.1 e.2).1) ∧
      ∀ db ∈ dbs, db.accessible = false →
        summaryRowChunk db = notAccessibleRow db.sid := by
  obtain ⟨hdbs, -⟩ := mainLoop_ok_spec w entries [] dbs lgs h
  subst hdbs
  refine ⟨?_, ?_, ?_, ?_⟩
  · simp [dbSummaryRowChunks]
  · rw [List.map_map]
    apply List.map_congr_left
    intro e he
    simp [Function.comp, probeEntry_fst_sid]
  · rw [dbSummaryRowChunks, List.map_map]
    rfl
  · intro db hdb hacc
    simp [summaryRowChunk, hacc]

/-- Claim C2, witness: a registry with two entries sharing one installation,
where the first probe raises after the connectivity check and the second is
cleanly inaccessible; the run completes with exactly two rows, in order,
both NOT ACCESSIBLE. -/
theorem c2_witness :
    (dbSummaryRowChunks mixedDbs).length = sharedHomeEntries.length ∧
      mixedDbs.map DbInfo.sid = sharedHomeEntries.map Prod.fst ∧
      dbSummaryRowChunks mixedDbs =
        sharedHomeEntries.map
          (fun e => summaryRowChunk (probeEntry mixedWorld e.1 e.2).1) ∧
      ∀ db ∈ mixedDbs, db.accessible = false →
        summaryRowChunk db = notAccessibleRow db.sid :=
  c2_completeness mixedWorld sharedHomeEntries mixedDbs mixedLgs rfl

/-- Claim C3, counterexample.  The claim says listener discovery and probing
run exactly once per distinct install_path **regardless of whether the
instances sharing it are accessible**.  In the source the listener block sits
after the `continue` taken when `is_database_accessible()` returns `False`,
so for a registry whose only entry (install_path `/h`) is cleanly
inaccessible the run completes with **zero** listener groups: `/h` is never
discovered or probed. -/
theorem c3_counterexample :
    mainLoop emptyWorld [("a", "/h")] [] =
      .ok ([inaccessibleDb], ([] : List ListenerGroup)) := rfl

/-- Claim C3, amended.  Listener discovery and probing run **at most** once
per distinct install_path: the listener groups are exactly the first
occurrences of the install_paths of entries that reach the listener block
(their probe passed the connectivity check or raised), with no duplicates —
but an install_path all of whose instances cleanly fail the connectivity
check is skipped entirely, because the `continue` in `main` bypasses the
listener block. -/
theorem c3_amended (w : World) (entries : List (String × String))
    (dbs : List DbInfo) (lgs : List ListenerGroup)
    (h : mainLoop w entries [] = .ok (dbs, lgs)) :
    lgs.map Prod.fst =
        firstOccur []
          ((entries.filter (fun e => (probeEntry w e.1 e.2).2)).map Prod.snd) ∧
      (lgs.map Prod.fst).Nodup ∧
      ∀ e ∈ entries, (probeEntry w e.1 e.2).2 = true →
        e.2 ∈ lgs.map Prod.fst := by
  obtain ⟨-, hlgs⟩ := mainLoop_ok_spec w entries [] dbs lgs h
  refine ⟨hlgs, ?_, ?_⟩
  · rw [hlgs]
    exact firstOccur_nodup _ _
  · intro e he hreach
    rw [hlgs]
    refine (mem_firstOccur _ _ _).mpr ⟨?_, by simp⟩
    exact List.mem_map_of_mem Prod.snd (List.mem_filter.mpr ⟨he, hreach⟩)

/-- Claim C3, witness: two entries share `/u01`; the first reaches the
listener block (its probe raised after the connectivity check), the second
does not; the shared home is probed exactly once. -/
theorem c3_witness :
    mixedLgs.map Prod.fst =
        firstOccur []
          ((sharedHomeEntries.filter
            (fun e => (probeEntry mixedWorld e.1 e.2).2)).map Prod.snd) ∧
      (mixedLgs.map Prod.fst).Nodup ∧
      ∀ e ∈ sharedHomeEntries, (probeEntry mixedWorld e.1 e.2).2 = true →
        e.2 ∈ mixedLgs.map Prod.fst :=
  c3_amended mixedWorld sharedHomeEntries mixedDbs mixedLgs rfl

/-- Claim C5, counterexample.  The claim says a missing registry file makes
the run fail with a non-zero exit and no report.  In `emptyWorld` no oratab
exists at any of the well-known locations, yet `main` completes: the process
exits 0 and a report (with empty summary tables) is generated and written. -/
theorem c5_counterexample :
    processExitCode (mainFull emptyWorld) = 0 ∧
      (mainFull emptyWorld).toOption.map
          (fun r => (r.dbInfos, r.listenerGroups)) = some ([], []) ∧
      (mainFull emptyWorld).toOption.map (fun r => r.reportHtml) =
        some (generateConsolidatedReport emptyWorld.hostname
          emptyWorld.timestamp [] []) :=
  ⟨rfl, rfl, rfl⟩

/-- Claim C5, amended.  When no registry file exists at any of the well-known
locations, `get_database_entries` prints a diagnostic and returns the empty
entry list; `main` then proceeds — it does not terminate — and produces a
report whose database summary has zero rows, and the process exits 0. -/
theorem c5_amended (w : World) (h : findOratab w.fs = none) :
    processExitCode (mainFull w) = 0 ∧
      (mainFull w).toOption.map (fun r => r.dbInfos) = some [] ∧
      (mainFull w).toOption.map (fun r => dbSummaryRowChunks r.dbInfos) =
        some [] ∧
      (mainFull w).toOption.map (fun r => r.reportHtml) =
        some (generateConsolidatedReport w.hostname w.timestamp [] []) := by
  unfold mainFull getDatabaseEntriesW
  rw [h]
  exact ⟨rfl, rfl, rfl, rfl⟩

/-- Claim C5, witness: the amended statement at the concrete fileless
world. -/
theorem c5_witness :
    processExitCode (mainFull emptyWorld) = 0 ∧
      (mainFull emptyWorld).toOption.map (fun r => r.dbInfos) = some [] ∧
      (mainFull emptyWorld).toOption.map
          (fun r => dbSummaryRowChunks r.dbInfos) = some [] ∧
      (mainFull emptyWorld).toOption.map (fun r => r.reportHtml) =
        some (generateConsolidatedReport emptyWorld.hostname
          emptyWorld.timestamp [] []) :=
  c5_amended emptyWorld rfl

/-- Claim C6, counterexample.  The claim says "3 minutes" is normalised to
the number 3.0, and that any unparseable value degrades to the PARSE_ERROR
sentinel.  In the source the minutes branch stores the first digit run **as a
string** (`re.findall(...)[0]`), so "3 minutes" yields the string "3", not
the number 3; and a value with no unit keyword — such as the interval form
"+00 00:03:00" — falls to the `else` branch and is passed through unchanged,
not converted to PARSE_ERROR. -/
theorem c6_counterexample :
    parseLagValue "3 minutes" = PyVal.str "3" ∧
      PyVal.str "3" ≠ PyVal.num 3 ∧
      parseLagValue "+00 00:03:00" = PyVal.str "+00 00:03:00" ∧
      parseLagValue "+00 00:03:00" ≠ PyVal.str "PARSE_ERROR" := by
  refine ⟨by decide, by decide, by decide, by decide⟩

/-- Claim C6, amended.  The lag computation tolerates the three units and
never raises: "3 minutes" yields the digit string "3" (minutes, as a string,
not the number 3.0), "90 seconds" yields the number 1.5, "2 hours" yields the
number 120; a value mentioning a unit but containing no digits degrades to
the PARSE_ERROR sentinel (the caught IndexError); a value mentioning no unit
keyword is passed through lowercased and unchanged — not PARSE_ERROR. -/
theorem c6_amended :
    parseLagValue "3 minutes" = PyVal.str "3" ∧
      parseLagValue "90 seconds" = PyVal.num (3 / 2) ∧
      parseLagValue "2 hours" = PyVal.num 120 ∧
      (∀ raw : String,
        strOccursIn (pyToLower raw) "minute" = false →
        strOccursIn (pyToLower raw) "second" = false →
        strOccursIn (pyToLower raw) "hour" = false →
        parseLagValue raw = PyVal.str (pyToLower raw)) ∧
      (∀ raw : String,
        strOccursIn (pyToLower raw) "minute" = true →
        digitRuns (pyToLower raw).toList = [] →
        parseLagValue raw = PyVal.str "PARSE_ERROR") := by
  refine ⟨by decide, ?_, ?_, ?_, ?_⟩
  · have h1 : strOccursIn (pyToLower "90 seconds") "minute" = false := by decide
    have h2 : strOccursIn (pyToLower "90 seconds") "second" = true := by decide
    have h3 : digitRuns (pyToLower "90 seconds").toList = ["90"] := by decide
    have h4 : digitsToNat "90" = 90 := by decide
    simp only [parseLagValue, h1, h2, h3, h4, Bool.false_eq_true, if_false, if_true]
    norm_num [pyRound1, roundHalfEven]
  · have h1 : strOccursIn (pyToLower "2 hours") "minute" = false := by decide
    have h2 : strOccursIn (pyToLower "2 hours") "second" = false := by decide
    have h3 : strOccursIn (pyToLower "2 hours") "hour" = true := by decide
    have h4 : digitRuns (pyToLower "2 hours").toList = ["2"] := by decide
    have h5 : digitsToNat "2" = 2 := by decide
    simp only [parseLagValue, h1, h2, h3, h4, h5, Bool.false_eq_true, if_false, if_true]
    norm_num
  · intro raw h1 h2 h3
    simp [parseLagValue, h1, h2, h3]
  · intro raw h1 hd
    simp only [String.toList] at hd
    simp [parseLagValue, h1, hd]

/-- Claim C6, witness: a unitless value passes through unchanged and a
digitless minutes value becomes PARSE_ERROR. -/
theorem c6_witness :
    parseLagValue "foo" = PyVal.str "foo" ∧
      parseLagValue "minutes pending" = PyVal.str "PARSE_ERROR" :=
  ⟨c6_amended.2.2.2.1 "foo" (by decide) (by decide) (by decide),
    c6_amended.2.2.2.2 "minutes pending" (by decide) (by decide)⟩

/-- Claim C7.  Status classification is a pure function of value ranges: a
tablespace usage value is "good" iff it is below 75, "warning" iff in
[75, 90), "error" iff at least 90; an apply-lag value is "good" iff at most
5, "warning" iff in (5, 30], "error" iff above 30. -/
theorem c7_classification (u lag : ℚ) :
    ((getUsageClassNum u = "status-good" ↔ u < 75) ∧
      (getUsageClassNum u = "status-warning" ↔ 75 ≤ u ∧ u < 90) ∧
      (getUsageClassNum u = "status-error" ↔ 90 ≤ u)) ∧
      ((getLagClassNum lag = "status-good" ↔ lag ≤ 5) ∧
        (getLagClassNum lag = "status-warning" ↔ 5 < lag ∧ lag ≤ 30) ∧
        (getLagClassNum lag = "status-error" ↔ 30 < lag)) := by
  have hgw : ("status-good" : String) ≠ "status-warning" := by decide
  have hge : ("status-good" : String) ≠ "status-error" := by decide
  have hwe : ("status-warning" : String) ≠ "status-error" := by decide
  constructor
  · unfold getUsageClassNum
    split_ifs with h1 h2
    · exact ⟨⟨fun _ => h1, fun _ => rfl⟩,
        ⟨fun hc => absurd hc hgw, fun hc => absurd h1 (not_lt.mpr hc.1)⟩,
        ⟨fun hc => absurd hc hge, fun hc => absurd h1 (not_lt.mpr (by linarith))⟩⟩
    · exact ⟨⟨fun hc => absurd hc hgw.symm, fun hc => absurd hc h1⟩,
        ⟨fun _ => ⟨not_lt.mp h1, h2⟩, fun _ => rfl⟩,
        ⟨fun hc => absurd hc hwe, fun hc => absurd h2 (not_lt.mpr hc)⟩⟩
    · exact ⟨⟨fun hc => absurd hc hge.symm, fun hc => absurd hc h1⟩,
        ⟨fun hc => absurd hc hwe.symm, fun hc => absurd hc.2 h2⟩,
        ⟨fun _ => not_lt.mp h2, fun _ => rfl⟩⟩
  · unfold getLagClassNum
    split_ifs with h1 h2
    · exact ⟨⟨fun _ => h1, fun _ => rfl⟩,
        ⟨fun hc => absurd hc hgw, fun hc => absurd h1 (not_le.mpr hc.1)⟩,
        ⟨fun hc => absurd hc hge, fun hc => absurd h1 (not_le.mpr (by linarith))⟩⟩
    · exact ⟨⟨fun hc => absurd hc hgw.symm, fun hc => absurd hc h1⟩,
        ⟨fun _ => ⟨not_le.mp h1, h2⟩, fun _ => rfl⟩,
        ⟨fun hc => absurd hc hwe, fun hc => absurd h2 (not_le.mpr hc)⟩⟩
    · exact ⟨⟨fun hc => absurd hc hge.symm, fun hc => absurd hc h1⟩,
        ⟨fun hc => absurd hc hwe.symm, fun hc => absurd hc.2 h2⟩,
        ⟨fun _ => not_le.mp h2, fun _ => rfl⟩⟩

/-- Claim C7, witness: the boundary values 74.99, 75, 89.99, 90 for usage and
5, 30, 30.05 for lag, classified through the theorem. -/
theorem c7_witness :
    getUsageClassNum (7499 / 100) = "status-good" ∧
      getUsageClassNum 75 = "status-warning" ∧
      getUsageClassNum (8999 / 100) = "status-warning" ∧
      getUsageClassNum 90 = "status-error" ∧
      getLagClassNum 5 = "status-good" ∧
      getLagClassNum 30 = "status-warning" ∧
      getLagClassNum (601 / 20) = "status-error" :=
  ⟨((c7_classification (7499 / 100) 0).1.1).mpr (by norm_num),
    ((c7_classification 75 0).1.2.1).mpr (by norm_num),
    ((c7_classification (8999 / 100) 0).1.2.1).mpr (by norm_num),
    ((c7_classification 90 0).1.2.2).mpr (by norm_num),
    ((c7_classification 0 5).2.1).mpr (by norm_num),
    ((c7_classification 0 30).2.2.1).mpr (by norm_num),
    ((c7_classification 0 (601 / 20)).2.2.2).mpr (by norm_num)⟩

/-- Claim C10.  The `try`/`except` in `main` covers only the database probe;
the listener block after it is unguarded.  For a registry whose single line
is `foo::N` (empty install_path) and an environment without ORACLE_HOME, the
`OracleRunner` constructor's `ValueError` is caught (the entry degrades to
NOT ACCESSIBLE), but the `ListenerChecker` constructor then raises the same
`ValueError` outside the `try`: it propagates out of `main`, aborting the
whole run with a non-zero exit — whatever the probe or listener world. -/
theorem c10_uncaught (probe : String → String → ProbeOutcome)
    (lst : String → String → ListenerInfo) :
    mainFull (emptyHomeWorld probe lst) = .error oracleHomeNotSetMsg ∧
      processExitCode (mainFull (emptyHomeWorld probe lst)) = 1 :=
  ⟨rfl, rfl⟩

end Codbcr
